import Mathlib

/-!
Verification of the Prefect MCP server (`src/prefect_mcp_server.py`) against
its natural-language specification.  The spec's design notes (§9) resolve the
two source variants by committing to the single-shared-client design of
`prefect_mcp_server.py`, so that file is embedded here.

The embedding is a shallow one: JSON values are an inductive type, the remote
HTTP world is an oracle function from requests to outcomes, and each facade
operation returns its result together with the list of HTTP requests it
issued (so "issues exactly one request" is the trace being a singleton).
-/

/-- JSON values, the data exchanged with the Prefect REST API. -/
inductive Json where
  | null : Json
  | bool : Bool → Json
  | num : Int → Json
  | str : String → Json
  | arr : List Json → Json
  | obj : List (String × Json) → Json

/-- An HTTP request as assembled by `PrefectApiClient._request`:
method, full URL, query parameters (`params=` keyword) and optional JSON
body (`json=` keyword). -/
structure Request where
  method : String
  url : String
  params : List (String × Int)
  jsonBody : Option Json

/-- Outcome of `self.client.request(...)` as seen by the `try` block of
`_request`: either a response (status code, raw body text, and the result of
attempting to decode the body as JSON — `response.json()` may raise), or an
`httpx.RequestError` (connection refused, timeout, DNS, TLS...), or any
other exception raised by the transport. -/
inductive HttpOutcome where
  | response : Nat → String → Except String Json → HttpOutcome
  | requestError : String → HttpOutcome
  | otherError : String → HttpOutcome

/-- The remote world: what each issued request comes back with. -/
def Env : Type := Request → HttpOutcome

/-- `httpx.Response.is_success`: a 2xx status.  `raise_for_status` raises
`HTTPStatusError` exactly when the status is not a success. -/
def isSuccessStatus (status : Nat) : Bool :=
  decide (200 ≤ status) && decide (status < 300)

/-- The client object: base URL and default headers, as set in
`PrefectApiClient.__init__`. -/
structure PrefectApiClient where
  api_url : String
  headers : List (String × String)

/-- Module-level `HEADERS`: content type always, bearer authorization
present iff a nonempty API key was configured. -/
def HEADERS (api_key : String) : List (String × String) :=
  [("Content-Type", "application/json")] ++
    (if api_key ≠ "" then [("Authorization", "Bearer " ++ api_key)] else [])

namespace PrefectApiClient

/-- The `try`/`except` chain of `PrefectApiClient._request`, applied to the
outcome of the transport call.  On a response, `raise_for_status` raises
`httpx.HTTPStatusError` for a non-2xx status, caught and turned into the
`mcp_error`/`details` record; on a 2xx status `response.json()` either
yields the decoded body (returned directly) or raises, which falls to the
generic `except Exception` arm; `httpx.RequestError` and any other
exception each get their own error record. -/
def normalize : HttpOutcome → Json
  | .response status text body =>
      if isSuccessStatus status then
        match body with
        | .ok j => j
        | .error msg =>
            Json.obj [("mcp_error", .str ("Unexpected Server Error: " ++ msg))]
      else
        Json.obj [("mcp_error",
            .str ("Prefect API Error: HTTP " ++ toString status)),
          ("details", .str text)]
  | .requestError msg =>
      Json.obj [("mcp_error", .str ("Prefect API Request Error: " ++ msg))]
  | .otherError msg =>
      Json.obj [("mcp_error", .str ("Unexpected Server Error: " ++ msg))]

/-- `PrefectApiClient._request`: builds the URL as `f"{api_url}/{endpoint}"`,
issues the one request, and normalizes every failure into an error record
(a JSON object with key `"mcp_error"`) instead of propagating it.  Returns
the result together with the trace of issued requests. -/
def _request (c : PrefectApiClient) (env : Env) (method endpoint : String)
    (params : List (String × Int)) (jsonBody : Option Json) :
    Json × List Request :=
  let url := c.api_url ++ "/" ++ endpoint
  let req : Request := ⟨method, url, params, jsonBody⟩
  (normalize (env req), [req])

/-- `PrefectApiClient.get_flows`. -/
def get_flows (c : PrefectApiClient) (env : Env) (limit : Int) :
    Json × List Request :=
  c._request env "GET" "flows" [("limit", limit)] none

/-- `PrefectApiClient.get_flow_runs`. -/
def get_flow_runs (c : PrefectApiClient) (env : Env) (limit : Int) :
    Json × List Request :=
  c._request env "GET" "flow_runs" [("limit", limit)] none

/-- `PrefectApiClient.get_deployments`. -/
def get_deployments (c : PrefectApiClient) (env : Env) (limit : Int) :
    Json × List Request :=
  c._request env "GET" "deployments" [("limit", limit)] none

/-- `PrefectApiClient.filter_flows`: criteria forwarded verbatim as body. -/
def filter_flows (c : PrefectApiClient) (env : Env) (filter_criteria : Json) :
    Json × List Request :=
  c._request env "POST" "flows/filter" [] (some filter_criteria)

/-- `PrefectApiClient.filter_flow_runs`. -/
def filter_flow_runs (c : PrefectApiClient) (env : Env)
    (filter_criteria : Json) : Json × List Request :=
  c._request env "POST" "flow_runs/filter" [] (some filter_criteria)

/-- `PrefectApiClient.filter_deployments`. -/
def filter_deployments (c : PrefectApiClient) (env : Env)
    (filter_criteria : Json) : Json × List Request :=
  c._request env "POST" "deployments/filter" [] (some filter_criteria)

/-- `PrefectApiClient.create_flow_run`: body is
`{"parameters": parameters}` when `parameters is not None`, else the empty
object; the deployment id is interpolated into the path. -/
def create_flow_run (c : PrefectApiClient) (env : Env) (deployment_id : String)
    (parameters : Option Json) : Json × List Request :=
  let data : Json :=
    match parameters with
    | some p => Json.obj [("parameters", p)]
    | none => Json.obj []
  c._request env "POST"
    ("deployments/" ++ deployment_id ++ "/create_flow_run") [] (some data)

end PrefectApiClient

/-! ## MCP tool layer (the `@mcp_server.tool()` functions) -/

/-- Tool `list_flows`: delegates to `client.get_flows(limit=limit)`. -/
def list_flows (c : PrefectApiClient) (env : Env) (limit : Int) :
    Json × List Request :=
  c.get_flows env limit

/-- Tool `list_flow_runs`. -/
def list_flow_runs (c : PrefectApiClient) (env : Env) (limit : Int) :
    Json × List Request :=
  c.get_flow_runs env limit

/-- Tool `list_deployments`. -/
def list_deployments (c : PrefectApiClient) (env : Env) (limit : Int) :
    Json × List Request :=
  c.get_deployments env limit

/-- Tool `filter_flows`. -/
def filter_flows (c : PrefectApiClient) (env : Env) (filter_criteria : Json) :
    Json × List Request :=
  c.filter_flows env filter_criteria

/-- Tool `filter_flow_runs`. -/
def filter_flow_runs (c : PrefectApiClient) (env : Env)
    (filter_criteria : Json) : Json × List Request :=
  c.filter_flow_runs env filter_criteria

/-- Tool `filter_deployments`. -/
def filter_deployments (c : PrefectApiClient) (env : Env)
    (filter_criteria : Json) : Json × List Request :=
  c.filter_deployments env filter_criteria

/-- Python truthiness of the tool's `deployment_id` argument: `None`
(modelled as `none`, the argument being absent with a lenient dispatcher)
and the empty string are the falsy values of type `Optional[str]`. -/
def truthyDeploymentId : Option String → Bool
  | none => false
  | some s => decide (s ≠ "")

/-- Tool `create_flow_run`: `if not deployment_id`, fail fast with a
missing-argument error record and no HTTP call; otherwise delegate to
`client.create_flow_run`. -/
def create_flow_run (c : PrefectApiClient) (env : Env)
    (deployment_id : Option String) (parameters : Option Json) :
    Json × List Request :=
  if truthyDeploymentId deployment_id then
    c.create_flow_run env (deployment_id.getD "") parameters
  else
    (Json.obj [("mcp_error", .str "Missing required argument: deployment_id")],
     [])

/-! ## The facade as a whole -/

/-- One invocation of one of the seven facade operations, with its
arguments. -/
inductive FacadeOp where
  | list_flows (limit : Int)
  | list_flow_runs (limit : Int)
  | list_deployments (limit : Int)
  | filter_flows (filter_criteria : Json)
  | filter_flow_runs (filter_criteria : Json)
  | filter_deployments (filter_criteria : Json)
  | create_flow_run (deployment_id : Option String) (parameters : Option Json)

/-- Dispatch a facade invocation to the corresponding tool function,
returning the result and the trace of HTTP requests issued. -/
def runFacadeOp (c : PrefectApiClient) (env : Env) :
    FacadeOp → Json × List Request
  | .list_flows limit => list_flows c env limit
  | .list_flow_runs limit => list_flow_runs c env limit
  | .list_deployments limit => list_deployments c env limit
  | .filter_flows fc => filter_flows c env fc
  | .filter_flow_runs fc => filter_flow_runs c env fc
  | .filter_deployments fc => filter_deployments c env fc
  | .create_flow_run d p => create_flow_run c env d p

/-- Serve a sequence of facade invocations one after the other: each call
is independent, so the process serves every call of the sequence. -/
def serveAll (c : PrefectApiClient) (env : Env) (ops : List FacadeOp) :
    List Json :=
  ops.map (fun op => (runFacadeOp c env op).1)

/-! ## Error records and the spec's error-kind taxonomy -/

/-- Does a JSON value carry the `"mcp_error"` marker key, the shape of the
code's uniform error record? -/
def hasMcpError : Json → Bool
  | .obj kvs => kvs.any (fun kv => kv.1 = "mcp_error")
  | _ => false

/-- A transport outcome the `try` block of `_request` treats as a failure:
anything other than a 2xx response whose body decodes as JSON. -/
def failureOutcome : HttpOutcome → Bool
  | .response status _ (.ok _) => !isSuccessStatus status
  | .response _ _ (.error _) => true
  | .requestError _ => true
  | .otherError _ => true

/-- The spec's §7 error-kind taxonomy, recovered from the shape of the
code's error records: only the remote-status branch carries a `details`
field; the other kinds are identified by their message. -/
def errorKind : Json → Option String
  | .obj [("mcp_error", Json.str m)] =>
      if m = "Missing required argument: deployment_id" then
        some "missing-argument"
      else if m.startsWith "Prefect API Request Error: " then
        some "transport-error"
      else if m.startsWith "Unexpected Server Error: " then
        some "internal-error"
      else none
  | .obj [("mcp_error", Json.str _), ("details", Json.str _)] =>
      some "remote-status-error"
  | _ => none

/-! ## Lifecycle manager (`prefect_api_lifespan`) -/

/-- Observable lifecycle events: client construction (pool acquired),
client close (pool released), and re-propagation of an error raised by the
serving body. -/
inductive LifespanEvent where
  | acquireClient : LifespanEvent
  | closeClient : LifespanEvent
  | propagate : String → LifespanEvent
deriving DecidableEq

/-- How the serving body (the `yield`ed region) ends: normally, or by an
error raised while serving. -/
inductive BodyOutcome where
  | completed : BodyOutcome
  | raised : String → BodyOutcome

/-- `prefect_api_lifespan`: construct the client on entering the serving
state, run the serving body, and run the `finally` block — which closes
the client — whether the body completed or raised; a raised error is
re-propagated only after the `finally` block has run. -/
def prefect_api_lifespan : BodyOutcome → List LifespanEvent
  | .completed => [.acquireClient, .closeClient]
  | .raised msg => [.acquireClient, .closeClient, .propagate msg]

/-! ## The request each facade operation plans to issue -/

/-- The single request a facade invocation issues, if any: `none` exactly
when the local `deployment_id` validation of the `create_flow_run` tool
fails and no HTTP call is made. -/
def opRequest (c : PrefectApiClient) : FacadeOp → Option Request
  | .list_flows limit =>
      some ⟨"GET", c.api_url ++ "/" ++ "flows", [("limit", limit)], none⟩
  | .list_flow_runs limit =>
      some ⟨"GET", c.api_url ++ "/" ++ "flow_runs", [("limit", limit)], none⟩
  | .list_deployments limit =>
      some ⟨"GET", c.api_url ++ "/" ++ "deployments", [("limit", limit)], none⟩
  | .filter_flows fc =>
      some ⟨"POST", c.api_url ++ "/" ++ "flows/filter", [], some fc⟩
  | .filter_flow_runs fc =>
      some ⟨"POST", c.api_url ++ "/" ++ "flow_runs/filter", [], some fc⟩
  | .filter_deployments fc =>
      some ⟨"POST", c.api_url ++ "/" ++ "deployments/filter", [], some fc⟩
  | .create_flow_run d p =>
      if truthyDeploymentId d then
        some ⟨"POST",
          c.api_url ++ "/" ++
            ("deployments/" ++ d.getD "" ++ "/create_flow_run"), [],
          some (match p with
            | some q => Json.obj [("parameters", q)]
            | none => Json.obj [])⟩
      else none

/-- The local missing-argument error record of the `create_flow_run` tool. -/
def missingArgumentRecord : Json :=
  Json.obj [("mcp_error", Json.str "Missing required argument: deployment_id")]

/-! ## Concrete fixtures used in closed instances -/

/-- A client configured with the default environment values. -/
def demoClient : PrefectApiClient := ⟨"http://localhost:4200/api", HEADERS ""⟩

/-- The request `list_flows` with `limit=20` issues against `demoClient`. -/
def flowsReq : Request :=
  ⟨"GET", demoClient.api_url ++ "/" ++ "flows", [("limit", 20)], none⟩

/-- A success payload that happens to look exactly like the error record a
404 produces. -/
def spoofBody : Json :=
  Json.obj [("mcp_error", Json.str "Prefect API Error: HTTP 404"),
    ("details", Json.str "not found")]

/-- A remote service answering every request with 200 and `spoofBody`. -/
def envSpoof : Env := fun _ => .response 200 "ok" (.ok spoofBody)

/-- A remote service answering every request with a 404 whose body text is
`"not found"`. -/
def envFail404 : Env := fun _ => .response 404 "not found" (.ok Json.null)

/-- A remote service answering every request with 200 and an empty array. -/
def envOk200 : Env := fun _ => .response 200 "[]" (.ok (Json.arr []))

/-! ## Helper lemmas -/

theorem normalize_failure (o : HttpOutcome) (hf : failureOutcome o = true) :
    hasMcpError (PrefectApiClient.normalize o) = true := by
  cases o with
  | response status text body =>
      cases body with
      | ok j =>
          cases hs : isSuccessStatus status with
          | true => simp [failureOutcome, hs] at hf
          | false => simp [PrefectApiClient.normalize, hs, hasMcpError]
      | error msg =>
          cases hs : isSuccessStatus status <;>
            simp [PrefectApiClient.normalize, hs, hasMcpError]
  | requestError msg => simp [PrefectApiClient.normalize, hasMcpError]
  | otherError msg => simp [PrefectApiClient.normalize, hasMcpError]

theorem normalize_success (status : Nat) (text : String) (j : Json)
    (hs : isSuccessStatus status = true) :
    PrefectApiClient.normalize (.response status text (.ok j)) = j := by
  simp [PrefectApiClient.normalize, hs]

theorem normalize_status_error (status : Nat) (text : String)
    (body : Except String Json) (hs : isSuccessStatus status = false) :
    PrefectApiClient.normalize (.response status text body) =
      Json.obj [("mcp_error",
          Json.str ("Prefect API Error: HTTP " ++ toString status)),
        ("details", Json.str text)] := by
  cases body <;> simp [PrefectApiClient.normalize, hs]

theorem errorKind_status_record (m d : String) :
    errorKind (Json.obj [("mcp_error", Json.str m),
      ("details", Json.str d)]) = some "remote-status-error" := rfl

/-- Every facade invocation either issues its one planned request and
returns the normalized outcome, or (failed local validation) issues
nothing and returns the missing-argument record. -/
theorem runFacadeOp_eq (c : PrefectApiClient) (env : Env) (op : FacadeOp) :
    runFacadeOp c env op =
      match opRequest c op with
      | some r => (PrefectApiClient.normalize (env r), [r])
      | none => (missingArgumentRecord, []) := by
  cases op with
  | create_flow_run d p =>
      cases ht : truthyDeploymentId d <;>
        simp [runFacadeOp, create_flow_run, opRequest, ht,
          missingArgumentRecord, PrefectApiClient.create_flow_run,
          PrefectApiClient._request]
  | list_flows limit => rfl
  | list_flow_runs limit => rfl
  | list_deployments limit => rfl
  | filter_flows fc => rfl
  | filter_flow_runs fc => rfl
  | filter_deployments fc => rfl

/-! ## Claims -/

/-- C1: For every facade operation and every failure outcome of its remote
call (non-2xx status, transport failure, or any other exception, including
a failing body decode), the failure is caught and the operation returns the
uniform error record — a JSON object carrying the `mcp_error` key — to the
caller.  The operations are total functions of their arguments and of the
remote world, so no exception propagates out of an operation and one
failing call cannot crash the serving process or change any other call's
result. -/
theorem facade_failure_normalized (c : PrefectApiClient) (env : Env)
    (op : FacadeOp) (r : Request)
    (hr : (runFacadeOp c env op).2 = [r])
    (hf : failureOutcome (env r) = true) :
    hasMcpError (runFacadeOp c env op).1 = true := by
  rcases hq : opRequest c op with _ | q
  · rw [runFacadeOp_eq c env op, hq] at hr
    simp at hr
  · rw [runFacadeOp_eq c env op, hq] at hr ⊢
    have hqr : q = r := by simpa using hr
    subst hqr
    exact normalize_failure _ hf

/-- Witness for C1: a 404 from the remote on `list_flow_runs` yields an
error record. -/
theorem facade_failure_normalized_witness :
    (runFacadeOp demoClient envFail404 (.list_flow_runs 5)).2 =
      [⟨"GET", demoClient.api_url ++ "/" ++ "flow_runs", [("limit", 5)],
        none⟩] ∧
    failureOutcome (envFail404 ⟨"GET",
      demoClient.api_url ++ "/" ++ "flow_runs", [("limit", 5)], none⟩) =
        true ∧
    hasMcpError (runFacadeOp demoClient envFail404 (.list_flow_runs 5)).1 =
      true :=
  ⟨rfl, rfl,
    facade_failure_normalized demoClient envFail404 (.list_flow_runs 5)
      ⟨"GET", demoClient.api_url ++ "/" ++ "flow_runs", [("limit", 5)],
        none⟩ rfl rfl⟩

/-- C2 counterexample: a successful call (status 200, body decodes) whose
payload happens to be `spoofBody` returns data identical to what a failing
call (status 404, body text `"not found"`) returns, with both calls
issuing the same request; so no decision procedure on the returned data
alone can tell success from failure — the claimed purely-shape-based
distinction fails. -/
theorem success_failure_shape_collision :
    (runFacadeOp demoClient envSpoof (.list_flows 20)).1 =
      (runFacadeOp demoClient envFail404 (.list_flows 20)).1 ∧
    (runFacadeOp demoClient envSpoof (.list_flows 20)).2 = [flowsReq] ∧
    (runFacadeOp demoClient envFail404 (.list_flows 20)).2 = [flowsReq] ∧
    failureOutcome (envSpoof flowsReq) = false ∧
    failureOutcome (envFail404 flowsReq) = true :=
  ⟨rfl, rfl, rfl, rfl, rfl⟩

/-- C2 (amended): every facade call returns exactly one JSON value — the
operations are total, so never none, and a single value, so never two.
When local validation rejects the call (no request issued) or the issued
request's outcome is a failure, that value is the uniform error record
carrying the `mcp_error` key; on a success outcome it is the decoded
payload unchanged.  Success and failure are therefore distinguishable from
the shape of the returned data whenever the remote success payload does
not itself contain the `mcp_error` key (not in general, per the
counterexample). -/
theorem facade_result_envelope (c : PrefectApiClient) (env : Env)
    (op : FacadeOp) :
    ((runFacadeOp c env op).2 = [] →
      hasMcpError (runFacadeOp c env op).1 = true) ∧
    (∀ r, (runFacadeOp c env op).2 = [r] →
      (failureOutcome (env r) = true →
        hasMcpError (runFacadeOp c env op).1 = true) ∧
      (∀ status text j, env r = .response status text (.ok j) →
        isSuccessStatus status = true →
        (runFacadeOp c env op).1 = j)) := by
  rcases hq : opRequest c op with _ | q <;>
    rw [runFacadeOp_eq c env op, hq]
  · refine ⟨fun _ => rfl, ?_⟩
    intro r hr
    simp at hr
  · refine ⟨fun h => by simp at h, ?_⟩
    intro r hr
    have hqr : q = r := by simpa using hr
    subst hqr
    refine ⟨fun hf => normalize_failure _ hf, ?_⟩
    intro status text j henv hs
    show PrefectApiClient.normalize (env q) = j
    rw [henv]
    exact normalize_success status text j hs

/-- Witness for C2 (amended): a 200 response with body `[]` on
`list_flows` is returned unchanged. -/
theorem facade_result_envelope_witness :
    (runFacadeOp demoClient envOk200 (.list_flows 20)).1 = Json.arr [] :=
  ((facade_result_envelope demoClient envOk200 (.list_flows 20)).2 flowsReq
    rfl).2 200 "[]" (Json.arr []) rfl rfl

/-- C3: the `create_flow_run` tool with `deployment_id` absent (`None`) or
equal to the empty string issues no HTTP request (empty trace) and returns
the missing-argument error record, whose error-kind is `missing-argument`
in the spec's taxonomy. -/
theorem create_flow_run_missing_argument (c : PrefectApiClient) (env : Env)
    (deployment_id : Option String) (parameters : Option Json)
    (h : deployment_id = none ∨ deployment_id = some "") :
    create_flow_run c env deployment_id parameters =
      (missingArgumentRecord, []) ∧
    errorKind (create_flow_run c env deployment_id parameters).1 =
      some "missing-argument" := by
  rcases h with h | h <;> subst h <;> exact ⟨rfl, rfl⟩

/-- Witness for C3: the absent (`none`) case at concrete arguments. -/
theorem create_flow_run_missing_argument_witness :
    ((none : Option String) = none ∨ (none : Option String) = some "") ∧
    create_flow_run demoClient envOk200 none (some (Json.obj [])) =
      (missingArgumentRecord, []) :=
  ⟨Or.inl rfl,
    (create_flow_run_missing_argument demoClient envOk200 none
      (some (Json.obj [])) (Or.inl rfl)).1⟩

/-- C4: for every filter criteria value, each of the three filter tools
issues exactly one POST whose JSON body is the caller's criteria verbatim
(the body the remote receives is the very value the caller supplied). -/
theorem filter_ops_verbatim_body (c : PrefectApiClient) (env : Env)
    (filter_criteria : Json) :
    (filter_flows c env filter_criteria).2 =
      [⟨"POST", c.api_url ++ "/" ++ "flows/filter", [],
        some filter_criteria⟩] ∧
    (filter_flow_runs c env filter_criteria).2 =
      [⟨"POST", c.api_url ++ "/" ++ "flow_runs/filter", [],
        some filter_criteria⟩] ∧
    (filter_deployments c env filter_criteria).2 =
      [⟨"POST", c.api_url ++ "/" ++ "deployments/filter", [],
        some filter_criteria⟩] :=
  ⟨rfl, rfl, rfl⟩

/-- C5: when the remote answers any facade operation's request with a
failure status, the operation returns the error record of kind
`remote-status-error`, whose message is `"Prefect API Error: HTTP "`
followed by the numeric status code (so the message contains the code as a
substring) and whose `details` field is the raw response body text; and
the process serves every subsequent call of a sequence exactly as it would
serve it alone. -/
theorem remote_status_error_normalized (c : PrefectApiClient) (env : Env)
    (op : FacadeOp) (r : Request) (status : Nat) (text : String)
    (body : Except String Json)
    (hr : (runFacadeOp c env op).2 = [r])
    (henv : env r = .response status text body)
    (hs : isSuccessStatus status = false) :
    (runFacadeOp c env op).1 =
      Json.obj [("mcp_error",
          Json.str ("Prefect API Error: HTTP " ++ toString status)),
        ("details", Json.str text)] ∧
    errorKind (runFacadeOp c env op).1 = some "remote-status-error" ∧
    (∃ s₁ s₂, "Prefect API Error: HTTP " ++ toString status =
      s₁ ++ toString status ++ s₂) ∧
    (∀ ops : List FacadeOp, serveAll c env (op :: ops) =
      (runFacadeOp c env op).1 :: serveAll c env ops) := by
  rcases hq : opRequest c op with _ | q
  · rw [runFacadeOp_eq c env op, hq] at hr
    simp at hr
  · have hqr : q = r := by
      rw [runFacadeOp_eq c env op, hq] at hr
      simpa using hr
    subst hqr
    have h1 : (runFacadeOp c env op).1 =
        PrefectApiClient.normalize (env q) := by
      rw [runFacadeOp_eq c env op, hq]
    have hmain : (runFacadeOp c env op).1 =
        Json.obj [("mcp_error",
            Json.str ("Prefect API Error: HTTP " ++ toString status)),
          ("details", Json.str text)] := by
      rw [h1, henv, normalize_status_error status text body hs]
    refine ⟨hmain, ?_,
      ⟨"Prefect API Error: HTTP ", "", by rw [String.append_empty]⟩,
      fun ops => rfl⟩
    rw [hmain]
    exact errorKind_status_record _ _

/-- Witness for C5: a 404 with body text `"not found"` on `list_flows`. -/
theorem remote_status_error_normalized_witness :
    (runFacadeOp demoClient envFail404 (.list_flows 20)).1 =
      Json.obj [("mcp_error", Json.str "Prefect API Error: HTTP 404"),
        ("details", Json.str "not found")] :=
  (remote_status_error_normalized demoClient envFail404 (.list_flows 20)
    flowsReq 404 "not found" (.ok Json.null) rfl rfl rfl).1

/-- C6: for every limit ≥ 0, each of the three list tools issues exactly
one GET carrying `limit` as its query parameter, and on a 200 response
whose body decodes to `j` it returns `j` itself — not reshaped or
wrapped. -/
theorem list_ops_get_limit (c : PrefectApiClient) (env : Env) (limit : Int)
    (_hl : 0 ≤ limit) :
    ((list_flows c env limit).2 =
        [⟨"GET", c.api_url ++ "/" ++ "flows", [("limit", limit)], none⟩] ∧
      ∀ text j,
        env ⟨"GET", c.api_url ++ "/" ++ "flows", [("limit", limit)],
          none⟩ = .response 200 text (.ok j) →
          (list_flows c env limit).1 = j) ∧
    ((list_flow_runs c env limit).2 =
        [⟨"GET", c.api_url ++ "/" ++ "flow_runs", [("limit", limit)],
          none⟩] ∧
      ∀ text j,
        env ⟨"GET", c.api_url ++ "/" ++ "flow_runs", [("limit", limit)],
          none⟩ = .response 200 text (.ok j) →
          (list_flow_runs c env limit).1 = j) ∧
    ((list_deployments c env limit).2 =
        [⟨"GET", c.api_url ++ "/" ++ "deployments", [("limit", limit)],
          none⟩] ∧
      ∀ text j,
        env ⟨"GET", c.api_url ++ "/" ++ "deployments", [("limit", limit)],
          none⟩ = .response 200 text (.ok j) →
          (list_deployments c env limit).1 = j) := by
  refine ⟨⟨rfl, ?_⟩, ⟨rfl, ?_⟩, ⟨rfl, ?_⟩⟩ <;>
    exact fun text j henv =>
      (congrArg PrefectApiClient.normalize henv).trans
        (normalize_success 200 text j rfl)

/-- Witness for C6: `list_flows` with limit 20 against a service answering
200 with body `[]` returns `[]`. -/
theorem list_ops_get_limit_witness :
    (0 : Int) ≤ 20 ∧
    (list_flows demoClient envOk200 20).1 = Json.arr [] := by
  have h := list_ops_get_limit demoClient envOk200 20 (by decide)
  exact ⟨by decide, h.1.2 "[]" (Json.arr []) rfl⟩

/-- C7: `create_flow_run` called with deployment id `"abc-123"` and
parameters `{"x": 1}` issues exactly one POST to
`deployments/abc-123/create_flow_run` (the id interpolated into the path)
with JSON body `{"parameters": {"x": 1}}` — both at the client method and
through the tool. -/
theorem create_flow_run_abc123 (c : PrefectApiClient) (env : Env) :
    (c.create_flow_run env "abc-123"
        (some (Json.obj [("x", Json.num 1)]))).2 =
      [⟨"POST",
        c.api_url ++ "/" ++ "deployments/abc-123/create_flow_run", [],
        some (Json.obj [("parameters", Json.obj [("x", Json.num 1)])])⟩] ∧
    (create_flow_run c env (some "abc-123")
        (some (Json.obj [("x", Json.num 1)]))).2 =
      [⟨"POST",
        c.api_url ++ "/" ++ "deployments/abc-123/create_flow_run", [],
        some (Json.obj [("parameters", Json.obj [("x", Json.num 1)])])⟩] :=
  ⟨rfl, rfl⟩

/-- C8: on every transition from serving to stopped — whether the serving
body completed or raised an error — the lifespan trace closes the client
(releases the pool) exactly once, matching the one acquisition. -/
theorem lifespan_close_exactly_once (body : BodyOutcome) :
    (prefect_api_lifespan body).count LifespanEvent.closeClient = 1 ∧
    (prefect_api_lifespan body).count LifespanEvent.acquireClient = 1 := by
  cases body <;> exact ⟨rfl, rfl⟩

/-- C9: for every configured base URL and relative endpoint path, the one
request `_request` issues has URL `api_url ++ "/" ++ endpoint` — the base
URL and the path joined by exactly one separating slash. -/
theorem request_url_one_slash (c : PrefectApiClient) (env : Env)
    (method endpoint : String) (params : List (String × Int))
    (jsonBody : Option Json) :
    (c._request env method endpoint params jsonBody).2 =
      [⟨method, c.api_url ++ "/" ++ endpoint, params, jsonBody⟩] := rfl

/-- C10: `create_flow_run` with `parameters` given but empty sends body
`{"parameters": {}}`; with any given `parameters` it sends
`{"parameters": parameters}`, never the bare empty object; the empty
object is the body exactly when `parameters` is absent (`None`), because
the branch tests `is not None`, not truthiness. -/
theorem create_flow_run_empty_parameters (c : PrefectApiClient) (env : Env)
    (deployment_id : String) :
    ((c.create_flow_run env deployment_id (some (Json.obj []))).2.map
        Request.jsonBody =
      [some (Json.obj [("parameters", Json.obj [])])]) ∧
    ((c.create_flow_run env deployment_id none).2.map Request.jsonBody =
      [some (Json.obj [])]) ∧
    (∀ p : Json,
      (c.create_flow_run env deployment_id (some p)).2.map
          Request.jsonBody =
        [some (Json.obj [("parameters", p)])]) ∧
    (∀ p : Json,
      (c.create_flow_run env deployment_id (some p)).2.map
          Request.jsonBody ≠
        [some (Json.obj [])]) := by
  refine ⟨rfl, rfl, fun p => rfl, fun p h => ?_⟩
  simp [PrefectApiClient.create_flow_run, PrefectApiClient._request] at h

/-- Witness for C10: the empty-mapping case at concrete arguments. -/
theorem create_flow_run_empty_parameters_witness :
    (demoClient.create_flow_run envOk200 "abc"
        (some (Json.obj []))).2.map Request.jsonBody =
      [some (Json.obj [("parameters", Json.obj [])])] :=
  (create_flow_run_empty_parameters demoClient envOk200 "abc").1
